import Mathlib

/-!
Verification of the k8s-learning text-processing job platform core:
the worker runtime, the queue-driven autoscaler, and the queue substrate
contract, shallowly embedded from the Go sources
(`internal/worker/worker.go`, `internal/worker/processors.go`,
`internal/storage/queue/redis.go`, `internal/storage/database/jobs.go`,
`internal/controller/metrics/metrics.go`).
-/

namespace K8sLearning

/-! ## Data model (`internal/storage/database/jobs.go`, `internal/storage/queue/redis.go`) -/

/-- `database.ProcessingType`: the six processing-type tags. -/
inductive ProcessingType
  | wordcount
  | linecount
  | uppercase
  | lowercase
  | replace
  | extract
deriving DecidableEq, Repr

/-- `database.JobStatus`: pending, running, succeeded, failed. -/
inductive JobStatus
  | pending
  | running
  | succeeded
  | failed
deriving DecidableEq, Repr

/-- A value of the heterogeneous `map[string]any` parameter map
(string, number and bool payloads, as in the wire JSON). -/
inductive ParamValue
  | str (s : String)
  | num (n : Int)
  | boolean (b : Bool)
deriving DecidableEq, Repr

/-- The `map[string]any` parameter map, as an association list. -/
abbrev Params := List (String × ParamValue)

/-- Models the Go type assertion `params[key].(string)`: the key must be
present and its value must be a string. -/
def Params.lookupStr (p : Params) (key : String) : Option String :=
  match p.lookup key with
  | some (ParamValue.str s) => some s
  | _ => none

/-- `queue.SubmitJobMessage`: the wire form of a job between publisher and
worker.  The UUID job id is modelled as a string. -/
structure SubmitJobMessage where
  jobID : String
  filePath : String
  processingType : ProcessingType
  parameters : Params
  priority : Int
  delayMS : Int
deriving DecidableEq, Repr

/-- The failed-queue envelope built by `RedisQueue.PublishToFailedQueue`:
the original message plus failed-at timestamp, error text and retry count. -/
structure FailedMessage where
  message : SubmitJobMessage
  failedAt : Int
  errorMessage : String
  retryCount : Int
deriving DecidableEq, Repr

/-! ## Queue substrate model (`internal/storage/queue/redis.go`)

Each Redis list is modelled as a Lean list whose head is the left (`LPUSH`)
end; `BRPOP` removes the right end, i.e. the last element, which is the
earliest-published message (FIFO). -/

/-- `highPriorityThreshold` from `redis.go`. -/
def highPriorityThreshold : Int := 5

/-- The three logical queues of the substrate plus the in-memory state of the
failed sink.  The head of each list is the most recently pushed element. -/
structure QueueState where
  main : List SubmitJobMessage
  priorityQ : List SubmitJobMessage
  failed : List FailedMessage
deriving DecidableEq, Repr

/-- Which queue `RedisQueue.PublishJob` targets: `text_tasks:priority` when
`message.Priority > highPriorityThreshold`, else `text_tasks`. -/
inductive QueueName
  | main
  | priorityQ
  | failedQ
deriving DecidableEq, Repr

/-- The queue chosen by `RedisQueue.PublishJob` for a message. -/
def publishTarget (message : SubmitJobMessage) : QueueName :=
  if message.priority > highPriorityThreshold then QueueName.priorityQ
  else QueueName.main

/-- `RedisQueue.PublishJob`: `LPUSH` the encoded message onto the chosen
queue (encoding always succeeds in the typed model). -/
def PublishJob (st : QueueState) (message : SubmitJobMessage) : QueueState :=
  match publishTarget message with
  | QueueName.priorityQ => { st with priorityQ := message :: st.priorityQ }
  | _ => { st with main := message :: st.main }

/-- The outcome of `RedisQueue.ConsumeJob`: a decoded message together with
the queue it came from, or `ErrNoJobsAvailable` when the blocking wait
elapsed with both queues empty. -/
inductive ConsumeResult
  | claimed (message : SubmitJobMessage) (fromQueue : QueueName)
  | noJobs
deriving DecidableEq, Repr

/-- `RedisQueue.ConsumeJob`: `BRPOP` over `[text_tasks:priority, text_tasks]`
in that key order, so the priority queue is drained first; pops the right
(oldest) end of the chosen list. -/
def ConsumeJob (st : QueueState) : ConsumeResult × QueueState :=
  match st.priorityQ.getLast? with
  | some message =>
      (ConsumeResult.claimed message QueueName.priorityQ,
        { st with priorityQ := st.priorityQ.dropLast })
  | none =>
      match st.main.getLast? with
      | some message =>
          (ConsumeResult.claimed message QueueName.main,
            { st with main := st.main.dropLast })
      | none => (ConsumeResult.noJobs, st)

/-- `RedisQueue.PublishToFailedQueue`: builds the failed envelope from the
original message with `RetryCount = 1` and the current time, and `LPUSH`es it
onto `text_tasks:failed`. -/
def mkFailedMessage (now : Int) (message : SubmitJobMessage)
    (errorMsg : String) : FailedMessage :=
  { message := message, failedAt := now, errorMessage := errorMsg,
    retryCount := 1 }

/-- The state change performed by `RedisQueue.PublishToFailedQueue`. -/
def PublishToFailedQueue (st : QueueState) (now : Int)
    (message : SubmitJobMessage) (errorMsg : String) : QueueState :=
  { st with failed := mkFailedMessage now message errorMsg :: st.failed }

/-! ## Autoscaler (`internal/controller/metrics/metrics.go`, package scaler) -/

/-- `DefaultMinReplicas` from the scaler. -/
def DefaultMinReplicas : Int := 1

/-- `DefaultMaxReplicas` from the scaler. -/
def DefaultMaxReplicas : Int := 10

/-- `ScaleUpThreshold` from the scaler. -/
def ScaleUpThreshold : Int := 20

/-- `ScaleDownThreshold` from the scaler. -/
def ScaleDownThreshold : Int := 5

/-- `JobsPerWorker` from the scaler. -/
def JobsPerWorker : Int := 10

/-- `Worker.calculateOptimalReplicas`: the replica rule.  Ceiling division is
written exactly as in the Go source, `(queueDepth + JobsPerWorker - 1) /
JobsPerWorker`; the `needed < 0` overflow guard is kept verbatim. -/
def calculateOptimalReplicas (queueDepth : Int) (currentReplicas : Int) : Int :=
  let targetReplicas : Int :=
    if queueDepth = 0 then
      DefaultMinReplicas
    else if queueDepth > ScaleUpThreshold then
      let needed := (queueDepth + JobsPerWorker - 1) / JobsPerWorker
      let neededReplicas := if needed < 0 then DefaultMaxReplicas else needed
      min (currentReplicas + 2) neededReplicas
    else if queueDepth < ScaleDownThreshold ∧ currentReplicas > DefaultMinReplicas then
      currentReplicas - 1
    else
      currentReplicas
  let clampedLow :=
    if targetReplicas < DefaultMinReplicas then DefaultMinReplicas else targetReplicas
  if clampedLow > DefaultMaxReplicas then DefaultMaxReplicas else clampedLow

/-- Iterating the replica rule over a sequence of depth samples, collecting
the target after each tick (one entry per sample). -/
def replicaSeries (current : Int) : List Int → List Int
  | [] => []
  | depth :: rest =>
      let next := calculateOptimalReplicas depth current
      next :: replicaSeries next rest

/-- The deployment state the scaler reads: the requested replica count
(`deployment.Spec.Replicas`) and `deployment.Status.ReadyReplicas`. -/
structure DeploymentView where
  replicas : Int
  readyReplicas : Int
deriving DecidableEq, Repr

/-- `QueueStats` from the scaler. -/
structure QueueStats where
  totalDepth : Int
  activeWorkers : Int
deriving DecidableEq, Repr

/-- What one tick of `Worker.scaleWorkerDeployment` does to the orchestrator:
nothing (deployment missing, or target equals current) or a merge patch of
the replica field. -/
inductive ScaleAction
  | skip
  | noChange (current : Int)
  | patch (fromReplicas toReplicas : Int)
deriving DecidableEq, Repr

/-- `Worker.scaleWorkerDeployment`, one reconciliation tick.  `deployment` is
the looked-up worker deployment (`none` models the not-found skip);
`probe` is the result of `getQueueStats` (`none` models a failed
queue-length probe).  On probe failure the Go code continues with
`QueueStats` where `TotalDepth: 0, ActiveWorkers: ReadyReplicas` and still runs the
replica rule and the patch. -/
def scaleWorkerDeployment (deployment : Option DeploymentView)
    (probe : Option QueueStats) : ScaleAction :=
  match deployment with
  | none => ScaleAction.skip
  | some dep =>
      let queueStats : QueueStats :=
        match probe with
        | some stats => stats
        | none => { totalDepth := 0, activeWorkers := dep.readyReplicas }
      let currentReplicas := dep.replicas
      let optimalReplicas := calculateOptimalReplicas queueStats.totalDepth currentReplicas
      if optimalReplicas ≠ currentReplicas then
        ScaleAction.patch currentReplicas optimalReplicas
      else
        ScaleAction.noChange currentReplicas

/-! ## Job record store (`internal/storage/database/jobs.go`)

The `jobs` table is modelled as an association list from job id to row; a
single-statement `UPDATE ... WHERE id = $n` touches every row whose id
matches and reports the number of affected rows. -/

/-- One row of the `jobs` table (the lifecycle half that the worker
mutates; timestamps are abstract instants). -/
structure JobRow where
  status : JobStatus
  resultPath : String
  errorMessage : String
  startedAt : Option Int
  completedAt : Option Int
  workerID : Option String
deriving DecidableEq, Repr

/-- The `jobs` table. -/
abbrev JobsDb := List (String × JobRow)

/-- The `job not found: ...` error returned when `rowsAffected == 0`. -/
inductive DbError
  | notFound (id : String)
deriving DecidableEq, Repr

/-- The `SET` clause chosen by the `switch status` in
`Repository.UpdateStatus`: running sets `status, started_at, worker_id`;
succeeded and failed set `status, completed_at`; pending sets `status`
alone. -/
def updateStatusSet (now : Int) (status : JobStatus) (workerID : Option String)
    (row : JobRow) : JobRow :=
  match status with
  | JobStatus.running =>
      { row with status := status, startedAt := some now, workerID := workerID }
  | JobStatus.succeeded =>
      { row with status := status, completedAt := some now }
  | JobStatus.failed =>
      { row with status := status, completedAt := some now }
  | JobStatus.pending =>
      { row with status := status }

/-- `Repository.UpdateStatus`: one atomic `UPDATE jobs SET ... WHERE id = $n`;
returns `job not found` exactly when zero rows were affected.  The `WHERE`
clause filters on the id only — it carries no status guard. -/
def UpdateStatus (db : JobsDb) (now : Int) (id : String) (status : JobStatus)
    (workerID : Option String) : Except DbError JobsDb :=
  let affected := (db.filter (fun p => p.1 = id)).length
  if affected = 0 then
    Except.error (DbError.notFound id)
  else
    Except.ok (db.map (fun p =>
      if p.1 = id then (p.1, updateStatusSet now status workerID p.2) else p))

/-- `Repository.UpdateResult`: sets `result_path`, status succeeded and
`completed_at` on the row with the given id; `job not found` when zero rows
were affected. -/
def UpdateResult (db : JobsDb) (now : Int) (id : String)
    (resultPath : String) : Except DbError JobsDb :=
  let affected := (db.filter (fun p => p.1 = id)).length
  if affected = 0 then
    Except.error (DbError.notFound id)
  else
    Except.ok (db.map (fun p =>
      if p.1 = id then
        (p.1, { p.2 with resultPath := resultPath, status := JobStatus.succeeded,
                         completedAt := some now })
      else p))

/-- `Repository.UpdateError`: sets `error_message`, status failed and
`completed_at` on the row with the given id; `job not found` when zero rows
were affected. -/
def UpdateError (db : JobsDb) (now : Int) (id : String)
    (errorMessage : String) : Except DbError JobsDb :=
  let affected := (db.filter (fun p => p.1 = id)).length
  if affected = 0 then
    Except.error (DbError.notFound id)
  else
    Except.ok (db.map (fun p =>
      if p.1 = id then
        (p.1, { p.2 with errorMessage := errorMessage, status := JobStatus.failed,
                         completedAt := some now })
      else p))

/-! ## Text transform engine (`internal/worker/processors.go`)

The file system is an association list from path to content; `regexp.Compile`
plus `FindAllString` are modelled by an environment function from a pattern
to an optional matcher (compile failure is `none`).  The processor layer
performs only file I/O, recorded as `FileEffect`s. -/

/-- `worker.ErrorType` from the worker package. -/
inductive ErrorType
  | fileRead
  | fileWrite
  | invalidParam
  | regexCompile
  | processingLogic
deriving DecidableEq, Repr

/-- `worker.ProcessingError` (the `Cause` chain is dropped; its text is
folded into `details` by the constructors below where the claims need it). -/
structure ProcessingError where
  type : ErrorType
  message : String
  details : String
deriving DecidableEq, Repr

/-- `NewFileReadError`. -/
def NewFileReadError (filePath : String) : ProcessingError :=
  { type := ErrorType.fileRead, message := "failed to read file",
    details := "file: " ++ filePath }

/-- `NewFileWriteError`. -/
def NewFileWriteError (filePath : String) : ProcessingError :=
  { type := ErrorType.fileWrite, message := "failed to write file",
    details := "file: " ++ filePath }

/-- `NewInvalidParamError`. -/
def NewInvalidParamError (paramName details : String) : ProcessingError :=
  { type := ErrorType.invalidParam,
    message := "invalid parameter: " ++ paramName, details := details }

/-- `NewRegexCompileError`. -/
def NewRegexCompileError (pattern : String) : ProcessingError :=
  { type := ErrorType.regexCompile,
    message := "failed to compile regex pattern",
    details := "pattern: " ++ pattern }

/-- `ProcessingError.Error()`: the rendered error text. -/
def ProcessingError.text (pe : ProcessingError) : String :=
  let typeName :=
    match pe.type with
    | ErrorType.fileRead => "file_read"
    | ErrorType.fileWrite => "file_write"
    | ErrorType.invalidParam => "invalid_parameter"
    | ErrorType.regexCompile => "regex_compile"
    | ErrorType.processingLogic => "processing_logic"
  if pe.details ≠ "" then
    typeName ++ ": " ++ pe.message ++ " (" ++ pe.details ++ ")"
  else
    typeName ++ ": " ++ pe.message

/-- A file-system operation performed by the processor layer. -/
inductive FileEffect
  | read (path : String)
  | write (path : String) (content : String)
deriving DecidableEq, Repr

/-- `worker.ProcessingJob`, built by the driver from the claimed message. -/
structure ProcessingJob where
  jobID : String
  filePath : String
  processingType : ProcessingType
  parameters : Params
  delayMS : Int
deriving DecidableEq, Repr

/-- The worker environment: the file-system contents seen by
`os.ReadFile` / `os.Open`, the regex engine behind `regexp.Compile` (whose
successful result is the `FindAllString` matcher), whether `os.WriteFile`
succeeds, the configured result directory, and the outcomes of the three
repository calls the driver can make plus the current time. -/
structure DriverEnv where
  fs : List (String × String)
  compile : String → Option (String → List String)
  writeOk : Bool
  resultDir : String
  markRunning : Except String Unit
  updateResult : Except String Unit
  now : Int

/-- `filepath.Join(tp.resultDir, "result_" + jobID + ".txt")`. -/
def resultPathFor (resultDir jobID : String) : String :=
  resultDir ++ "/result_" ++ jobID ++ ".txt"

/-- `TextProcessor.writeResult`: writes `{result-dir}/result_{job-id}.txt`;
returns the output path, or the empty path on a write error exactly as the
Go function returns `""` with the error. -/
def writeResult (env : DriverEnv) (jobID content : String) :
    Except Unit String × List FileEffect :=
  let outputPath := resultPathFor env.resultDir jobID
  if env.writeOk then
    (Except.ok outputPath, [FileEffect.write outputPath content])
  else
    (Except.error (), [FileEffect.write outputPath content])

/-- The common processor tail: on write success return the path, on write
failure wrap `NewFileWriteError` around the (empty) path the Go
`writeResult` returned. -/
def finishWrite (env : DriverEnv) (jobID content : String)
    (pre : List FileEffect) :
    Except ProcessingError String × List FileEffect :=
  match writeResult env jobID content with
  | (Except.ok outputPath, tr) => (Except.ok outputPath, pre ++ tr)
  | (Except.error _, tr) => (Except.error (NewFileWriteError ""), pre ++ tr)

/-- `strings.Fields`: the maximal runs of non-whitespace characters. -/
def goFields (content : String) : List String :=
  (content.split Char.isWhitespace).filter (fun s => s ≠ "")

/-- `TextProcessor.processWordCount`. -/
def processWordCount (env : DriverEnv) (job : ProcessingJob) :
    Except ProcessingError String × List FileEffect :=
  match env.fs.lookup job.filePath with
  | none => (Except.error (NewFileReadError job.filePath), [FileEffect.read job.filePath])
  | some content =>
      finishWrite env job.jobID (toString (goFields content).length)
        [FileEffect.read job.filePath]

/-! ### The `bufio.Scanner` model used by `processLineCount`

`processLineCount` streams the file through a default `bufio.Scanner` with
the `ScanLines` split function.  The default scanner rejects any token it
cannot buffer: a maximal newline-free run of `MaxScanTokenSize = 65536` or
more bytes makes `Scan` stop and `Err()` report `bufio.ErrTooLong`
(characters stand in for bytes here).  Tokens are the newline-separated
segments, without a final empty token when the content ends in a newline. -/

/-- `bufio.MaxScanTokenSize`. -/
def maxScanTokenSize : Nat := 65536

/-- Splits a character list at newlines; `acc` holds the reversed current
segment.  Always returns at least one (possibly empty) segment. -/
def scanSegsAux : List Char → List Char → List (List Char)
  | acc, [] => [acc.reverse]
  | acc, c :: rest =>
      if c = '\n' then acc.reverse :: scanSegsAux [] rest
      else scanSegsAux (c :: acc) rest

/-- The maximal newline-free segments of the content. -/
def scanSegs (content : List Char) : List (List Char) :=
  scanSegsAux [] content

/-- The tokens a `bufio.Scanner` with `ScanLines` emits: the segments,
dropping the final empty segment produced by a trailing newline, and no
token at all for empty content. -/
def scannerTokens (content : List Char) : List (List Char) :=
  match content.getLast? with
  | some '\n' => (scanSegs content).dropLast
  | some _ => scanSegs content
  | none => []

/-- `bufio.ErrTooLong`. -/
inductive ScanError
  | tooLong
deriving DecidableEq, Repr

/-- The line count produced by the `for scanner.Scan() ... scanner.Err()`
loop: `ErrTooLong` when some segment reaches `maxScanTokenSize`, otherwise
the number of tokens. -/
def scannerLineCount (content : List Char) : Except ScanError Nat :=
  if (scanSegs content).any (fun seg => maxScanTokenSize ≤ seg.length) then
    Except.error ScanError.tooLong
  else
    Except.ok (scannerTokens content).length

/-- `TextProcessor.processLineCount`: open the file, count lines with the
scanner, wrap a scan failure as a file-read error, then write the decimal
count. -/
def processLineCount (env : DriverEnv) (job : ProcessingJob) :
    Except ProcessingError String × List FileEffect :=
  match env.fs.lookup job.filePath with
  | none => (Except.error (NewFileReadError job.filePath), [FileEffect.read job.filePath])
  | some content =>
      match scannerLineCount content.data with
      | Except.error _ =>
          (Except.error (NewFileReadError job.filePath), [FileEffect.read job.filePath])
      | Except.ok lineCount =>
          finishWrite env job.jobID (toString lineCount) [FileEffect.read job.filePath]

/-- `TextProcessor.processUppercase` (`strings.ToUpper`; `Char.toUpper`
models the Unicode mapping, exact on ASCII). -/
def processUppercase (env : DriverEnv) (job : ProcessingJob) :
    Except ProcessingError String × List FileEffect :=
  match env.fs.lookup job.filePath with
  | none => (Except.error (NewFileReadError job.filePath), [FileEffect.read job.filePath])
  | some content =>
      finishWrite env job.jobID (content.map Char.toUpper)
        [FileEffect.read job.filePath]

/-- `TextProcessor.processLowercase` (`strings.ToLower`). -/
def processLowercase (env : DriverEnv) (job : ProcessingJob) :
    Except ProcessingError String × List FileEffect :=
  match env.fs.lookup job.filePath with
  | none => (Except.error (NewFileReadError job.filePath), [FileEffect.read job.filePath])
  | some content =>
      finishWrite env job.jobID (content.map Char.toLower)
        [FileEffect.read job.filePath]

/-- `TextProcessor.processReplace`: requires a non-empty string `find` and a
string `replace_with`, then replaces every non-overlapping occurrence. -/
def processReplace (env : DriverEnv) (job : ProcessingJob) :
    Except ProcessingError String × List FileEffect :=
  match job.parameters.lookupStr "find" with
  | none => (Except.error (NewInvalidParamError "find" "missing or empty"), [])
  | some find =>
      if find = "" then
        (Except.error (NewInvalidParamError "find" "missing or empty"), [])
      else
        match job.parameters.lookupStr "replace_with" with
        | none =>
            (Except.error (NewInvalidParamError "replace_with" "missing or not a string"), [])
        | some replaceWith =>
            match env.fs.lookup job.filePath with
            | none =>
                (Except.error (NewFileReadError job.filePath), [FileEffect.read job.filePath])
            | some content =>
                finishWrite env job.jobID (content.replace find replaceWith)
                  [FileEffect.read job.filePath]

/-- `TextProcessor.processExtract`: requires a non-empty `pattern`, compiles
it, reads the file, joins all matches with a newline and writes the
result. -/
def processExtract (env : DriverEnv) (job : ProcessingJob) :
    Except ProcessingError String × List FileEffect :=
  match job.parameters.lookupStr "pattern" with
  | none => (Except.error (NewInvalidParamError "pattern" "missing or empty"), [])
  | some pattern =>
      if pattern = "" then
        (Except.error (NewInvalidParamError "pattern" "missing or empty"), [])
      else
        match env.compile pattern with
        | none => (Except.error (NewRegexCompileError pattern), [])
        | some findAll =>
            match env.fs.lookup job.filePath with
            | none =>
                (Except.error (NewFileReadError job.filePath), [FileEffect.read job.filePath])
            | some content =>
                finishWrite env job.jobID
                  (String.intercalate "\n" (findAll content))
                  [FileEffect.read job.filePath]

/-- `TextProcessor.Process`: pure dispatch on the processing type.  The six
constructors exhaust the tag type, so the Go `default` branch
(`NewProcessingLogicError`) is unreachable in the typed model. -/
def Process (env : DriverEnv) (job : ProcessingJob) :
    Except ProcessingError String × List FileEffect :=
  match job.processingType with
  | ProcessingType.wordcount => processWordCount env job
  | ProcessingType.linecount => processLineCount env job
  | ProcessingType.uppercase => processUppercase env job
  | ProcessingType.lowercase => processLowercase env job
  | ProcessingType.replace => processReplace env job
  | ProcessingType.extract => processExtract env job

/-! ## Per-job driver (`Worker.processJob`, `internal/worker/worker.go`) -/

/-- An observable action of the per-job driver, in program order.  The
`sleepDelay` constructor is the vocabulary for the synthetic `delay-ms`
sleep that spec §4.W J2 describes; the source driver never emits it (it
only observes the `JobDelaySeconds` metric), which the C1 theorem
records. -/
inductive Effect
  | markRunningAttempt (id : String) (workerID : String)
  | publishFailed (fm : FailedMessage)
  | sleepDelay (ms : Int)
  | fileRead (path : String)
  | fileWrite (path : String) (content : String)
  | updateResultAttempt (id : String) (path : String)
  | updateErrorAttempt (id : String) (message : String)
deriving DecidableEq, Repr

/-- Embeds a processor-layer file operation into the driver trace. -/
def FileEffect.toEffect : FileEffect → Effect
  | FileEffect.read path => Effect.fileRead path
  | FileEffect.write path content => Effect.fileWrite path content

/-- True exactly for the synthetic-delay sleep. -/
def Effect.isSleep : Effect → Bool
  | Effect.sleepDelay _ => true
  | _ => false

/-- True exactly for file reads and result writes. -/
def Effect.isFileOp : Effect → Bool
  | Effect.fileRead _ => true
  | Effect.fileWrite _ _ => true
  | _ => false

/-- True exactly for the job-record mutations (the three repository
updates). -/
def Effect.isRecordMut : Effect → Bool
  | Effect.markRunningAttempt _ _ => true
  | Effect.updateResultAttempt _ _ => true
  | Effect.updateErrorAttempt _ _ => true
  | _ => false

/-- The terminal state of one driver execution. -/
inductive DriverOutcome
  | failedPreStart
  | failedTransform
  | failedRecord
  | succeeded
deriving DecidableEq, Repr

/-- The `ProcessingJob` the driver builds from the claimed message. -/
def jobOfMessage (message : SubmitJobMessage) : ProcessingJob :=
  { jobID := message.jobID, filePath := message.filePath,
    processingType := message.processingType,
    parameters := message.parameters, delayMS := message.delayMS }

/-- `Worker.processJob` from `worker.go`: mark running (on failure, shunt
the message to the failed queue and stop without touching the row again);
run the transform (on failure, record the error on the row); record the
result (on failure, record the error on the row).  The source observes a
delay metric when `DelayMS > 0` but never sleeps; metrics are not traced
here. -/
def processJob (env : DriverEnv) (workerID : String)
    (message : SubmitJobMessage) : DriverOutcome × List Effect :=
  match env.markRunning with
  | Except.error e =>
      (DriverOutcome.failedPreStart,
        [Effect.markRunningAttempt message.jobID workerID,
         Effect.publishFailed (mkFailedMessage env.now message e)])
  | Except.ok _ =>
      let pr := Process env (jobOfMessage message)
      let transformTrace := pr.2.map FileEffect.toEffect
      match pr.1 with
      | Except.error perr =>
          (DriverOutcome.failedTransform,
            Effect.markRunningAttempt message.jobID workerID ::
              transformTrace ++ [Effect.updateErrorAttempt message.jobID perr.text])
      | Except.ok outputPath =>
          match env.updateResult with
          | Except.error e2 =>
              (DriverOutcome.failedRecord,
                Effect.markRunningAttempt message.jobID workerID ::
                  transformTrace ++
                    [Effect.updateResultAttempt message.jobID outputPath,
                     Effect.updateErrorAttempt message.jobID e2])
          | Except.ok _ =>
              (DriverOutcome.succeeded,
                Effect.markRunningAttempt message.jobID workerID ::
                  transformTrace ++
                    [Effect.updateResultAttempt message.jobID outputPath])

/-! ## Dispatch loop permit and gauge ordering (`Worker.jobLoop`)

One dispatched driver, as the sequence of synchronisation actions the
dispatch loop and the driver goroutine perform for one message: the loop
acquires a permit (`w.jobSema <- ...`), increments the `JobsActive` gauge,
and spawns the driver; when the driver returns, its deferred function first
releases the permit (`<-w.jobSema`) and then decrements the gauge. -/

/-- A synchronisation action around one driver. -/
inductive LoopEvent
  | acquirePermit
  | incGauge
  | runJob
  | releasePermit
  | decGauge
deriving DecidableEq, Repr

/-- The program-order action sequence for one dispatched driver, read off
`jobLoop` (worker.go lines 130-144). -/
def driverLoopEvents : List LoopEvent :=
  [LoopEvent.acquirePermit, LoopEvent.incGauge, LoopEvent.runJob,
   LoopEvent.releasePermit, LoopEvent.decGauge]

/-- Semaphore-and-gauge state: permits in use (bounded by the capacity),
the gauge value and the highest gauge value seen. -/
structure SemState where
  permitsInUse : Nat
  gauge : Int
  maxGauge : Int
deriving DecidableEq, Repr

/-- The initial semaphore-and-gauge state. -/
def SemState.init : SemState :=
  { permitsInUse := 0, gauge := 0, maxGauge := 0 }

/-- One synchronisation action against a semaphore of capacity `cap`:
acquiring blocks (is not enabled) at capacity, releasing requires a held
permit; the gauge moves freely. -/
def semStep (cap : Nat) (st : SemState) : LoopEvent → Option SemState
  | LoopEvent.acquirePermit =>
      if st.permitsInUse < cap then
        some { st with permitsInUse := st.permitsInUse + 1 }
      else none
  | LoopEvent.releasePermit =>
      if 0 < st.permitsInUse then
        some { st with permitsInUse := st.permitsInUse - 1 }
      else none
  | LoopEvent.incGauge =>
      some { st with gauge := st.gauge + 1,
                     maxGauge := max st.maxGauge (st.gauge + 1) }
  | LoopEvent.decGauge => some { st with gauge := st.gauge - 1 }
  | LoopEvent.runJob => some st

/-- Runs a schedule of synchronisation actions from a state; `none` when
some action is not enabled. -/
def semRun (cap : Nat) : SemState → List LoopEvent → Option SemState
  | st, [] => some st
  | st, e :: rest =>
      match semStep cap st e with
      | none => none
      | some st2 => semRun cap st2 rest

/-- `interleaves xs ys zs` holds when `zs` is an interleaving of `xs` and
`ys` (each kept in order). -/
def interleaves : List LoopEvent → List LoopEvent → List LoopEvent → Bool
  | [], [], [] => true
  | _, _, [] => false
  | xs, ys, z :: zs =>
      (match xs with
       | x :: xs2 => x = z && interleaves xs2 ys zs
       | [] => false) ||
      (match ys with
       | y :: ys2 => y = z && interleaves xs ys2 zs
       | [] => false)

/-! ## Heartbeat loop

Modelled from the spec: the worker heartbeat loop is absent from the `src/`
snapshot (only the `JobConsumer.SetWorkerHeartbeat` interface declaration,
the `HeartbeatInterval` configuration option and the `RedisQueue`
implementation remain); per spec §4.W loop 1 it posts one heartbeat
immediately on start and one more on every `heartbeat-interval` tick until
the shutdown signal fires. -/

/-- Modelled from the spec: the heartbeat loop from time `t`, with `ticks`
interval ticks still to fire before shutdown; returns the post times. -/
def heartbeatRun (interval : Nat) : Nat → Nat → List Nat
  | t, 0 => [t]
  | t, ticks + 1 => t :: heartbeatRun interval (t + interval) ticks

/-- Modelled from the spec: the post times of one worker run whose shutdown
signal fires after `ticks` interval ticks. -/
def heartbeatPosts (interval ticks : Nat) : List Nat :=
  heartbeatRun interval 0 ticks

/-- `SetWorkerHeartbeat`s TTL computation from `redis.go`:
`ttl*heartbeatTTLMultiplier + heartbeatTTLBufferSeconds*time.Second`, in
seconds. -/
def heartbeatTTLSeconds (intervalSeconds : Nat) : Nat :=
  intervalSeconds * 2 + 10

/-! ## Theorems -/

/-- The heartbeat loop posts at arithmetic times: helper for the C2
theorem. -/
theorem heartbeatRun_eq (interval : Nat) (ticks : Nat) :
    ∀ t : Nat, heartbeatRun interval t ticks =
      (List.range (ticks + 1)).map (fun k => t + k * interval) := by
  induction ticks with
  | zero => intro t; simp [heartbeatRun, List.range_succ]
  | succ n ih =>
      intro t
      have h : ∀ k : Nat, t + interval + k * interval = t + (k + 1) * interval := by
        intro k; ring
      simp only [heartbeatRun, ih (t + interval), List.range_succ_eq_map,
        List.map_cons, List.map_map, Function.comp_def, h]
      simp [Nat.succ_eq_add_one]

/-- C2: in every run of the (spec-modelled) worker heartbeat loop, one
heartbeat is posted immediately at time zero, and thereafter exactly one
heartbeat is posted per `heartbeat-interval` — at every multiple of the
interval — until the shutdown signal fires (after `ticks` interval
ticks). -/
theorem heartbeat_immediate_then_per_interval (interval ticks : Nat) :
    (heartbeatPosts interval ticks).head? = some 0 ∧
    heartbeatPosts interval ticks =
      (List.range (ticks + 1)).map (fun k => k * interval) := by
  refine ⟨?_, ?_⟩
  · cases ticks <;> simp [heartbeatPosts, heartbeatRun]
  · simpa [heartbeatPosts] using heartbeatRun_eq interval ticks 0

/-- C3: evaluating `scaleWorkerDeployment` at the failing input — the
queue-length probe fails while the deployment requests 5 replicas.  The
tick is not a no-op: the code substitutes queue depth 0 and patches the
replica count down to `DefaultMinReplicas = 1`. -/
theorem probe_failure_patches_to_min :
    scaleWorkerDeployment (some { replicas := 5, readyReplicas := 5 }) none =
      ScaleAction.patch 5 1 := by decide

/-- A `jobs` table whose single row `job-1` is already Running, attributed
to worker `w1`. -/
def c4Db : JobsDb :=
  [("job-1",
    { status := JobStatus.running, resultPath := "", errorMessage := "",
      startedAt := some 1, completedAt := none, workerID := some "w1" })]

/-- C4 counterexample: a second mark-running call for a row already in
status Running does not return the not-found failure — it affects one row
and succeeds, overwriting the attributed worker-id from `w1` to `w2`. -/
theorem second_mark_running_succeeds_overwriting :
    UpdateStatus c4Db 5 "job-1" JobStatus.running (some "w2") ≠
      Except.error (DbError.notFound "job-1") ∧
    UpdateStatus c4Db 5 "job-1" JobStatus.running (some "w2") =
      Except.ok [("job-1",
        { status := JobStatus.running, resultPath := "", errorMessage := "",
          startedAt := some 5, completedAt := none,
          workerID := some "w2" })] := by
  have heq : UpdateStatus c4Db 5 "job-1" JobStatus.running (some "w2") =
      Except.ok [("job-1",
        { status := JobStatus.running, resultPath := "", errorMessage := "",
          startedAt := some 5, completedAt := none,
          workerID := some "w2" })] := by rfl
  exact ⟨by rw [heq]; simp, heq⟩

/-- C4 amended: mark-running returns the not-found failure exactly when no
row with the given id exists; whenever such a row exists — whatever its
current status, including Running or a terminal status — the call affects
that row and succeeds, overwriting worker-id and started-at with the
caller's values. -/
theorem mark_running_not_found_iff_no_row (db : JobsDb) (now : Int)
    (id : String) (w : Option String) :
    (UpdateStatus db now id JobStatus.running w =
        Except.error (DbError.notFound id) ↔
      db.filter (fun p => p.1 = id) = []) ∧
    (db.filter (fun p => p.1 = id) ≠ [] →
      ∃ db2, UpdateStatus db now id JobStatus.running w = Except.ok db2 ∧
        ∀ p ∈ db2, p.1 = id →
          p.2.status = JobStatus.running ∧ p.2.workerID = w ∧
            p.2.startedAt = some now) := by
  unfold UpdateStatus
  by_cases h0 : (db.filter (fun p => p.1 = id)).length = 0
  · have hfe : db.filter (fun p => p.1 = id) = [] := List.length_eq_zero.mp h0
    simp [h0, hfe]
  · have hne : db.filter (fun p => p.1 = id) ≠ [] := by
      intro hc
      exact h0 (by simp [hc])
    simp only [h0, if_false]
    refine ⟨by simp [hne], fun _ => ⟨_, rfl, ?_⟩⟩
    intro p hp hpid
    rw [List.mem_map] at hp
    obtain ⟨q, hq, hpe⟩ := hp
    by_cases hq1 : q.1 = id
    · subst hpe
      simp [hq1, updateStatusSet]
    · exfalso
      rw [if_neg hq1] at hpe
      exact hq1 (hpe ▸ hpid)

/-- C4 witness: the amended mark-running behaviour at the concrete
already-Running table `c4Db`. -/
theorem mark_running_amended_witness :
    c4Db.filter (fun p => p.1 = "job-1") ≠ [] ∧
    (∃ db2, UpdateStatus c4Db 5 "job-1" JobStatus.running (some "w2") =
        Except.ok db2 ∧
      ∀ p ∈ db2, p.1 = "job-1" →
        p.2.status = JobStatus.running ∧ p.2.workerID = some "w2" ∧
          p.2.startedAt = some 5) :=
  ⟨by decide,
    (mark_running_not_found_iff_no_row c4Db 5 "job-1" (some "w2")).2 (by decide)⟩

/-- C5 counterexample: from `current = 1`, the depth samples
`[0, 0, 50, 50, 50, 50, 0, 0]` do NOT produce the claimed target series
`[1, 1, 3, 5, 7, 9, 10, 1, 1]` (which, with nine entries for eight samples,
also has the wrong length). -/
theorem autoscaler_ramp_counterexample :
    replicaSeries 1 [0, 0, 50, 50, 50, 50, 0, 0] ≠
      [1, 1, 3, 5, 7, 9, 10, 1, 1] := by decide

/-- C5 amended: the actual target series is `[1, 1, 3, 5, 5, 5, 1, 1]` —
the target rises by `STEP_UP = 2` per tick only until it reaches
`needed = ceil(50 / 10) = 5` (the rule takes `min(current + 2, needed)`, so
`MAX = 10` is never approached at depth 50), then snaps to `MIN = 1` when
the depth drops to 0. -/
theorem autoscaler_ramp_series :
    replicaSeries 1 [0, 0, 50, 50, 50, 50, 0, 0] =
      [1, 1, 3, 5, 5, 5, 1, 1] := by decide

/-- C6: with both queues non-empty, a single claim returns the FIFO head
(the earliest-published, right-end element) of the priority queue; and
publish routes a message to the main queue exactly when its priority is at
most 5, otherwise to the priority queue. -/
theorem priority_drains_first_and_publish_split (st : QueueState)
    (hp : st.priorityQ ≠ []) (hm : st.main ≠ []) :
    (∃ m, st.priorityQ.getLast? = some m ∧
      (ConsumeJob st).1 = ConsumeResult.claimed m QueueName.priorityQ) ∧
    (∀ message : SubmitJobMessage,
      (publishTarget message = QueueName.main ↔
        message.priority ≤ highPriorityThreshold) ∧
      (publishTarget message = QueueName.priorityQ ↔
        highPriorityThreshold < message.priority)) := by
  have hmm : st.main ≠ [] := hm
  constructor
  · have h := List.getLast?_eq_getLast st.priorityQ hp
    exact ⟨st.priorityQ.getLast hp, h, by simp [ConsumeJob, h]⟩
  · intro message
    unfold publishTarget
    by_cases h : highPriorityThreshold < message.priority
    · simp [h, not_le.mpr h]
    · simp [h, not_lt.mp h]

/-- A queue state with one message in each of the main and priority
queues. -/
def c6State : QueueState :=
  { main := [{ jobID := "b", filePath := "/in/b.txt",
               processingType := ProcessingType.wordcount, parameters := [],
               priority := 1, delayMS := 0 }],
    priorityQ := [{ jobID := "c", filePath := "/in/c.txt",
                    processingType := ProcessingType.uppercase, parameters := [],
                    priority := 9, delayMS := 0 }],
    failed := [] }

/-- C6 witness: at the concrete two-queue state, the single claim returns
the priority-queue message. -/
theorem priority_drains_first_witness :
    c6State.priorityQ ≠ [] ∧ c6State.main ≠ [] ∧
    (∃ m, c6State.priorityQ.getLast? = some m ∧
      (ConsumeJob c6State).1 = ConsumeResult.claimed m QueueName.priorityQ) :=
  ⟨by decide, by decide,
    (priority_drains_first_and_publish_split c6State (by decide) (by decide)).1⟩

/-- C8 counterexample: in the program order of `jobLoop`, the `JobsActive`
gauge decrement does NOT precede the permit release — the deferred function
releases the permit first and decrements afterwards. -/
theorem gauge_dec_not_before_release :
    ¬ (driverLoopEvents.indexOf LoopEvent.decGauge <
        driverLoopEvents.indexOf LoopEvent.releasePermit) := by decide

/-- A schedule of two drivers over a one-permit semaphore in which the
second driver acquires (and increments the gauge) between the first
driver's permit release and its gauge decrement. -/
def gaugeOverrunSchedule : List LoopEvent :=
  [LoopEvent.acquirePermit, LoopEvent.incGauge, LoopEvent.runJob,
   LoopEvent.releasePermit, LoopEvent.acquirePermit, LoopEvent.incGauge,
   LoopEvent.decGauge, LoopEvent.runJob, LoopEvent.releasePermit,
   LoopEvent.decGauge]

/-- C8 amended: per driver, the gauge is incremented strictly after the
permit is acquired, but decremented strictly AFTER (not before) the permit
is released; consequently the bound fails — there is a valid interleaving
of two drivers over a semaphore of capacity `concurrent-jobs = 1` in which
the gauge reaches 2. -/
theorem gauge_inc_after_acquire_dec_after_release :
    (driverLoopEvents.indexOf LoopEvent.acquirePermit <
      driverLoopEvents.indexOf LoopEvent.incGauge) ∧
    (driverLoopEvents.indexOf LoopEvent.releasePermit <
      driverLoopEvents.indexOf LoopEvent.decGauge) ∧
    interleaves driverLoopEvents driverLoopEvents gaugeOverrunSchedule = true ∧
    semRun 1 SemState.init gaugeOverrunSchedule =
      some { permitsInUse := 0, gauge := 0, maxGauge := 2 } := by decide

/-- C7: when mark-running fails for a claimed message, the driver deposits
exactly one failed envelope — the original message with the failed-at
timestamp, the error text and retry-count 1 — into the failed queue, and
the single (failed) mark-running attempt is the only job-record operation
in the whole execution. -/
theorem mark_running_failure_shunts_once (env : DriverEnv) (workerID : String)
    (message : SubmitJobMessage) (e : String)
    (h : env.markRunning = Except.error e) :
    processJob env workerID message =
      (DriverOutcome.failedPreStart,
        [Effect.markRunningAttempt message.jobID workerID,
         Effect.publishFailed (mkFailedMessage env.now message e)]) ∧
    (mkFailedMessage env.now message e).retryCount = 1 ∧
    (processJob env workerID message).2.countP Effect.isRecordMut = 1 := by
  have hp : processJob env workerID message =
      (DriverOutcome.failedPreStart,
        [Effect.markRunningAttempt message.jobID workerID,
         Effect.publishFailed (mkFailedMessage env.now message e)]) := by
    simp [processJob, h]
  refine ⟨hp, rfl, ?_⟩
  rw [hp]
  simp [List.countP_cons, Effect.isRecordMut]

/-- A worker environment whose mark-running call fails. -/
def c7Env : DriverEnv :=
  { fs := [], compile := fun _ => none, writeOk := true, resultDir := "/res",
    markRunning := Except.error "job not found: e", updateResult := Except.ok (),
    now := 42 }

/-- The claimed message of the C7 witness. -/
def c7Msg : SubmitJobMessage :=
  { jobID := "e", filePath := "/in/e.txt",
    processingType := ProcessingType.uppercase, parameters := [],
    priority := 1, delayMS := 0 }

/-- C7 witness: the mark-running-failure path at a concrete environment and
message. -/
theorem mark_running_failure_witness :
    processJob c7Env "w1" c7Msg =
      (DriverOutcome.failedPreStart,
        [Effect.markRunningAttempt "e" "w1",
         Effect.publishFailed (mkFailedMessage 42 c7Msg "job not found: e")]) ∧
    (mkFailedMessage 42 c7Msg "job not found: e").retryCount = 1 ∧
    (processJob c7Env "w1" c7Msg).2.countP Effect.isRecordMut = 1 :=
  mark_running_failure_shunts_once c7Env "w1" c7Msg "job not found: e" rfl

/-- C10: an extract job with a present, non-empty, compilable pattern whose
input content has zero matches succeeds: the empty string is written to the
result file and the driver reaches the Succeeded terminal state. -/
theorem extract_zero_matches_succeeds (env : DriverEnv) (workerID : String)
    (message : SubmitJobMessage) (pattern : String)
    (findAll : String → List String) (content : String)
    (hty : message.processingType = ProcessingType.extract)
    (hpat : message.parameters.lookupStr "pattern" = some pattern)
    (hne : pattern ≠ "")
    (hc : env.compile pattern = some findAll)
    (hf : env.fs.lookup message.filePath = some content)
    (hmatch : findAll content = [])
    (hw : env.writeOk = true)
    (hmr : env.markRunning = Except.ok ())
    (hur : env.updateResult = Except.ok ()) :
    (processJob env workerID message).1 = DriverOutcome.succeeded ∧
    Effect.fileWrite (resultPathFor env.resultDir message.jobID) "" ∈
      (processJob env workerID message).2 := by
  have hempty : String.intercalate "\n" ([] : List String) = "" := rfl
  have hP : Process env (jobOfMessage message) =
      (Except.ok (resultPathFor env.resultDir message.jobID),
        [FileEffect.read message.filePath,
         FileEffect.write (resultPathFor env.resultDir message.jobID) ""]) := by
    simp [Process, jobOfMessage, hty, processExtract, hpat, hne, hc, hf,
      hmatch, hempty, finishWrite, writeResult, hw]
  simp [processJob, hmr, hP, hur, FileEffect.toEffect]

/-- A worker environment for the C10 witness: the pattern `z+` compiles to
a matcher with zero matches on the input `hello`. -/
def c10Env : DriverEnv :=
  { fs := [("/in/a.txt", "hello")],
    compile := fun q => if q = "z+" then some (fun _ => []) else none,
    writeOk := true, resultDir := "/res",
    markRunning := Except.ok (), updateResult := Except.ok (), now := 0 }

/-- The extract message of the C10 witness. -/
def c10Msg : SubmitJobMessage :=
  { jobID := "a", filePath := "/in/a.txt",
    processingType := ProcessingType.extract,
    parameters := [("pattern", ParamValue.str "z+")],
    priority := 1, delayMS := 0 }

/-- C10 witness: the zero-match extract at a concrete environment and
message writes an empty result file and succeeds. -/
theorem extract_zero_matches_witness :
    (processJob c10Env "w1" c10Msg).1 = DriverOutcome.succeeded ∧
    Effect.fileWrite (resultPathFor c10Env.resultDir c10Msg.jobID) "" ∈
      (processJob c10Env "w1" c10Msg).2 :=
  extract_zero_matches_succeeds c10Env "w1" c10Msg "z+" (fun _ => []) "hello"
    rfl rfl (by decide) rfl rfl rfl rfl rfl rfl

/-- A worker environment for the C1 failing input: the mark-running call
succeeds, the input file is present, and the write goes through — nothing
but the delay handling is at stake. -/
def c1Env : DriverEnv :=
  { fs := [("/in/w.txt", "hello\nworld")], compile := fun _ => none,
    writeOk := true, resultDir := "/res",
    markRunning := Except.ok (), updateResult := Except.ok (), now := 0 }

/-- The C1 failing input: a claimed line-count message with
`delay_ms = 100`. -/
def c1Msg : SubmitJobMessage :=
  { jobID := "d", filePath := "/in/w.txt",
    processingType := ProcessingType.linecount, parameters := [],
    priority := 1, delayMS := 100 }

/-- C1: evaluating `Worker.processJob` at the failing input — a claimed
message with `delay-ms = 100 > 0` that runs to the Succeeded terminal.  The
driver performs the whole read-transform-write pipeline (the file read and
the result write are the full execution between mark-running and
record-result) with no sleep anywhere in the trace: the source only feeds
`DelayMS` into the `JobDelaySeconds` metric and never sleeps, so the
delay-before-file-I/O behaviour the claim (and spec §4.W J2) describe does
not exist in the program. -/
theorem delay_ms_never_slept_at_failing_input :
    0 < c1Msg.delayMS ∧
    processJob c1Env "w1" c1Msg =
      (DriverOutcome.succeeded,
        [Effect.markRunningAttempt "d" "w1",
         Effect.fileRead "/in/w.txt",
         Effect.fileWrite "/res/result_d.txt" "2",
         Effect.updateResultAttempt "d" "/res/result_d.txt"]) ∧
    (processJob c1Env "w1" c1Msg).2.countP Effect.isSleep = 0 := by
  refine ⟨by decide, ?_, ?_⟩ <;> rfl

/-- Splitting newline-free content yields the single whole segment: helper
for the C9 counterexample. -/
theorem scanSegsAux_of_no_newline :
    ∀ (l acc : List Char), Char.ofNat 10 ∉ l →
      scanSegsAux acc l = [acc.reverse ++ l] := by
  intro l
  induction l with
  | nil => intro acc _; simp [scanSegsAux]
  | cons c rest ih =>
      intro acc h
      have hc : ¬ (c = Char.ofNat 10) := fun hrfl => h (by simp [hrfl])
      have hrest : Char.ofNat 10 ∉ rest := fun hm => h (List.mem_cons_of_mem _ hm)
      simp [scanSegsAux, hc, ih (c :: acc) hrest]

/-- C9 amended: no whole-file size cap is enforced — the line count
succeeds for every readable file all of whose maximal newline-free
segments are shorter than `bufio.MaxScanTokenSize` (65536), whatever the
total size — but longer lines do reach a line-length-dependent error
branch (the counterexample below). -/
theorem linecount_ok_for_short_lines (env : DriverEnv) (job : ProcessingJob)
    (content : String)
    (hf : env.fs.lookup job.filePath = some content)
    (hshort : ∀ seg ∈ scanSegs content.data, seg.length < maxScanTokenSize)
    (hw : env.writeOk = true) :
    (processLineCount env job).1 =
      Except.ok (resultPathFor env.resultDir job.jobID) ∧
    FileEffect.write (resultPathFor env.resultDir job.jobID)
        (toString (scannerTokens content.data).length) ∈
      (processLineCount env job).2 := by
  have hany : (scanSegs content.data).any
      (fun seg => maxScanTokenSize ≤ seg.length) = false := by
    rw [List.any_eq_false]
    intro seg hs
    simpa using Nat.not_le.mpr (hshort seg hs)
  simp [processLineCount, hf, scannerLineCount, hany, finishWrite,
    writeResult, hw]

/-- Any readable file containing a maximal newline-free segment of at least
`maxScanTokenSize` characters makes the line-count operation fail with the
file-read-wrapped scanner error: helper for the C9 counterexample. -/
theorem linecount_fails_on_long_line (env : DriverEnv) (job : ProcessingJob)
    (content : String)
    (hf : env.fs.lookup job.filePath = some content)
    (seg : List Char) (hseg : seg ∈ scanSegs content.data)
    (hlen : maxScanTokenSize ≤ seg.length) :
    (processLineCount env job).1 =
      Except.error (NewFileReadError job.filePath) := by
  have hany : (scanSegs content.data).any
      (fun s => maxScanTokenSize ≤ s.length) = true :=
    List.any_eq_true.mpr ⟨seg, hseg, by simpa using hlen⟩
  simp [processLineCount, hf, scannerLineCount, hany]

/-- A worker environment whose input file is a single 65536-character
line. -/
def c9Env : DriverEnv :=
  { fs := [("/in/big.txt", String.mk (List.replicate 65536 'a'))],
    compile := fun _ => none, writeOk := true, resultDir := "/res",
    markRunning := Except.ok (), updateResult := Except.ok (), now := 0 }

/-- The line-count job of the C9 counterexample. -/
def c9Job : ProcessingJob :=
  { jobID := "g", filePath := "/in/big.txt",
    processingType := ProcessingType.linecount, parameters := [],
    delayMS := 0 }

/-- C9 counterexample: a readable input file consisting of one
65536-character line makes the line-count operation fail (the scanner's
ErrTooLong, wrapped as a file-read error) — so a line-length-dependent
error branch is reachable at this layer, refuting the claim for this
readable file. -/
theorem linecount_errtoolong_counterexample :
    (processLineCount c9Env c9Job).1 =
      Except.error (NewFileReadError "/in/big.txt") := by
  have hnl : Char.ofNat 10 ∉ List.replicate 65536 'a' := by
    rw [List.mem_replicate]
    push_neg
    intro h
    decide
  have hsegs : scanSegs (List.replicate 65536 'a') =
      [List.replicate 65536 'a'] := by
    rw [scanSegs, scanSegsAux_of_no_newline _ _ hnl]
    rfl
  have hmem : List.replicate 65536 'a' ∈
      scanSegs ((String.mk (List.replicate 65536 'a')).data) := by
    rw [show (String.mk (List.replicate 65536 'a')).data =
        List.replicate 65536 'a' from rfl, hsegs]
    exact List.mem_singleton.mpr rfl
  have hlen : maxScanTokenSize ≤ (List.replicate 65536 'a').length := by
    rw [List.length_replicate]
    exact Nat.le.refl
  exact linecount_fails_on_long_line c9Env c9Job _ rfl _ hmem hlen

/-- A worker environment for the C9 witness: a two-line file. -/
def c9OkEnv : DriverEnv :=
  { fs := [("/in/x.txt", "x\ny\n")], compile := fun _ => none,
    writeOk := true, resultDir := "/res",
    markRunning := Except.ok (), updateResult := Except.ok (), now := 0 }

/-- The line-count job of the C9 witness. -/
def c9OkJob : ProcessingJob :=
  { jobID := "h", filePath := "/in/x.txt",
    processingType := ProcessingType.linecount, parameters := [],
    delayMS := 0 }

/-- C9 witness: the amended line-count behaviour at a concrete short-lined
file. -/
theorem linecount_ok_witness :
    (processLineCount c9OkEnv c9OkJob).1 =
      Except.ok (resultPathFor c9OkEnv.resultDir c9OkJob.jobID) ∧
    FileEffect.write (resultPathFor c9OkEnv.resultDir c9OkJob.jobID)
        (toString (scannerTokens ("x\ny\n" : String).data).length) ∈
      (processLineCount c9OkEnv c9OkJob).2 :=
  linecount_ok_for_short_lines c9OkEnv c9OkJob "x\ny\n" rfl (by decide) rfl

end K8sLearning
